import Mathlib

/-!
Verification development for the che-code remote-workbench gateway.

The definitions below are a shallow embedding of the session/connection
broker of the repository: the websocket upgrade (websocket-upgrade.ts),
the protocol holder (vscode-protocol.ts, VSCodeProtocolHolder), the
reconnection registry and connection-type dispatch (websocket-handler.ts:
CheWebsocketHandler, ManagementReconnectionDetails,
ExtensionHostReconnectionDetails), the extension-host supervisor
(vscode-protocol.ts, ExtensionHost), the URI transformer
(che-uri-transformer.js) and the remote filesystem channel
(remote-filesystem-channel.ts).

Object identities (protocol objects, sockets, worker processes, watcher
providers) are modelled as natural numbers; side effects are modelled as
explicit event lists; JavaScript Map objects are modelled as association
lists over String keys.
-/

/-! ## Association-list model of a JavaScript Map keyed by strings -/

def lookupTable {α : Type} : List (String × α) → String → Option α
  | [], _ => none
  | (k, v) :: rest, key => if key = k then some v else lookupTable rest key

def eraseTable {α : Type} : List (String × α) → String → List (String × α)
  | [], _ => []
  | (k, v) :: rest, key => if key = k then eraseTable rest key else (k, v) :: eraseTable rest key

/-- Map.set: replace any previous binding of the key. -/
def setTable {α : Type} (t : List (String × α)) (key : String) (v : α) : List (String × α) :=
  (key, v) :: eraseTable t key

/-! ## Control messages

`VSCodeProtocolHolder.sendControlMessage` JSON-serialises small objects;
we model each concrete payload used by the broker as a constructor.
`emptyObj` is the empty object sent by `ExtensionHost.connect` when no
debug port is provided. -/

inductive CtrlMsg where
  | sign (data : String)
  | ok
  | error (reason : String)
  | debugPortMsg (port : Nat)
  | emptyObj
deriving DecidableEq

/-- The message sent to the worker during socket hand-off
(`IExtHostSocketMessage` with type VSCODE_EXTHOST_IPC_SOCKET). -/
structure IpcSocketMsg where
  initialDataChunk : String
  skipWebSocketFrames : Bool
  permessageDeflate : Bool
  inflateBytes : String
deriving DecidableEq

/-! ## Events

Side effects of the broker, in program order. -/

inductive Ev where
  | wroteHttp (socketId : Nat) (data : String)
  | endedWithData (socketId : Nat) (data : String)
  | sentControl (protocolId : Nat) (msg : CtrlMsg)
  | sentDisconnect (protocolId : Nat)
  | beganAcceptReconnection (protocolId : Nat) (newSocketId : Nat) (residual : List Nat)
  | endedAcceptReconnection (protocolId : Nat)
  | disposedProtocol (protocolId : Nat)
  | socketEnded (socketId : Nat)
  | socketDrained (socketId : Nat)
  | socketDisposed (socketId : Nat)
  | socketPaused (socketId : Nat)
  | firedClientConnect (protocolId : Nat)
  | forkedWorker (pid : Nat)
  | killedWorker (pid : Nat)
  | sentIpcSocketMsg (pid : Nat) (msg : IpcSocketMsg) (socketId : Nat)
deriving DecidableEq

/-! ## Sockets, protocols and the protocol holder -/

/-- `WebSocketNodeSocket`: the framed websocket channel. It records the
tail of recently inflated bytes for the extension-host hand-off. -/
structure WebSocketNodeSocket where
  socketId : Nat
  recordedInflateBytes : List Nat
deriving DecidableEq

/-- `VSCodeProtocolHolder` (vscode-protocol.ts): wraps a
`PersistentProtocol` built on a `WebSocketNodeSocket` together with the
query parameters of the originating upgrade request.  `buffered` is the
content the persistent protocol would return from `readEntireBuffer`. -/
structure VSCodeProtocolHolder where
  webSocketNodeSocket : WebSocketNodeSocket
  protocolId : Nat
  reconnection : Bool
  reconnectionToken : String
  permessageDeflate : Bool
  skipWebSocketFrames : Bool
  buffered : List Nat
deriving DecidableEq

/-- `VSCodeProtocolHolder.isReconnecting`. -/
def VSCodeProtocolHolder.isReconnecting (holder : VSCodeProtocolHolder) : Bool :=
  holder.reconnection = true

/-! ## Management sessions (websocket-handler.ts) -/

/-- `ManagementReconnectionDetails`: the management-table entry. -/
structure ManagementReconnectionDetails where
  protocolHolder : VSCodeProtocolHolder
  disposed : Bool
deriving DecidableEq

/-- `ManagementReconnectionDetails.reconnect(protocolHolder)`
(websocket-handler.ts lines 55-62).  The argument is the holder of the
freshly connected protocol; `this.protocolHolder` is the stored one.
Source order: send an ok control on the argument holder, drain the new
protocol via `readEntireBuffer`, swap the stored protocol onto the new
socket via begin/endAcceptReconnection, dispose the new protocol. -/
def ManagementReconnectionDetails.reconnect (details : ManagementReconnectionDetails)
    (newHolder : VSCodeProtocolHolder) : List Ev :=
  [ Ev.sentControl newHolder.protocolId CtrlMsg.ok,
    Ev.beganAcceptReconnection details.protocolHolder.protocolId
      newHolder.webSocketNodeSocket.socketId newHolder.buffered,
    Ev.endedAcceptReconnection details.protocolHolder.protocolId,
    Ev.disposedProtocol newHolder.protocolId ]

/-- `ManagementReconnectionDetails.dispose` (websocket-handler.ts lines
64-76): no-op when already disposed, otherwise send a disconnect
control, dispose the protocol, end the socket. -/
def ManagementReconnectionDetails.dispose (details : ManagementReconnectionDetails) :
    List Ev × ManagementReconnectionDetails :=
  if details.disposed then ([], details)
  else
    ([ Ev.sentDisconnect details.protocolHolder.protocolId,
       Ev.disposedProtocol details.protocolHolder.protocolId,
       Ev.socketEnded details.protocolHolder.webSocketNodeSocket.socketId ],
     { details with disposed := true })

/-- `CheWebsocketHandler.abortWebSocketConnection` (websocket-handler.ts
lines 250-267): send an error control message with the reason, dispose
the persistent protocol, drain and dispose the websocket. -/
def abortWebSocketConnection (holder : VSCodeProtocolHolder) (reason : String) : List Ev :=
  [ Ev.sentControl holder.protocolId (CtrlMsg.error reason),
    Ev.disposedProtocol holder.protocolId,
    Ev.socketDrained holder.webSocketNodeSocket.socketId,
    Ev.socketDisposed holder.webSocketNodeSocket.socketId ]

/-- Result of dispatching one connectionType request. -/
structure MgmtDispatchResult where
  events : List Ev
  table : List (String × ManagementReconnectionDetails)
  aborted : Bool

/-- The `ConnectionType.Management` branch of
`CheWebsocketHandler.handleConnectionTypeRequest` (websocket-handler.ts
lines 169-188) followed by the trailing ok message (lines 245-246).
Lookup of the reconnection token in the management table; abort on an
unknown token when reconnecting; insert a fresh entry and fire the
client-connected event on first connect; otherwise reuse the entry via
`reconnect`. -/
def handleManagementConnection (table : List (String × ManagementReconnectionDetails))
    (holder : VSCodeProtocolHolder) : MgmtDispatchResult :=
  match lookupTable table holder.reconnectionToken with
  | none =>
    if holder.isReconnecting then
      { events := abortWebSocketConnection holder "Asking to reconnect but provided token is unknown",
        table := table, aborted := true }
    else
      let details : ManagementReconnectionDetails := { protocolHolder := holder, disposed := false }
      { events := [Ev.firedClientConnect holder.protocolId,
                   Ev.sentControl holder.protocolId CtrlMsg.ok],
        table := setTable table holder.reconnectionToken details,
        aborted := false }
  | some details =>
      { events := details.reconnect holder ++ [Ev.sentControl holder.protocolId CtrlMsg.ok],
        table := table, aborted := false }

/-- Disposing a management session that is resident in the management
table: run `ManagementReconnectionDetails.dispose` on the entry.  No code
in CheWebsocketHandler deletes entries of `managementConnections`, so the
table keeps the (now disposed) entry. -/
def disposeManagementSession (table : List (String × ManagementReconnectionDetails))
    (token : String) : List Ev × List (String × ManagementReconnectionDetails) :=
  match lookupTable table token with
  | none => ([], table)
  | some details =>
      let r := details.dispose
      (r.1, setTable table token r.2)

/-! ## SHA-1 and base64 (crypto.createHash and Buffer.toString)

Executable implementations used by the websocket upgrade
(`Sec-WebSocket-Accept`) and by the hand-off encodings
(`initialDataChunk`, `inflateBytes`).  Bytes are naturals below 256 and
32-bit words are naturals reduced modulo 2 to the 32. -/

def w32 (n : Nat) : Nat := n % 4294967296

def rotl32 (k n : Nat) : Nat := w32 ((n <<< k) ||| (n >>> (32 - k)))

/-- Number of zero bytes of SHA-1 padding after the 0x80 byte. -/
def sha1PadZeros (len : Nat) : Nat := (120 - ((len + 1) % 64)) % 64

/-- Big-endian byte expansion, fixed width. -/
def natToBytesBE : Nat → Nat → List Nat
  | 0, _ => []
  | k + 1, n => natToBytesBE k (n / 256) ++ [n % 256]

def sha1Pad (msg : List Nat) : List Nat :=
  msg ++ [128] ++ List.replicate (sha1PadZeros msg.length) 0 ++ natToBytesBE 8 (8 * msg.length)

def bytesToWords : List Nat → List Nat
  | b0 :: b1 :: b2 :: b3 :: rest => (b0 * 16777216 + b1 * 65536 + b2 * 256 + b3) :: bytesToWords rest
  | _ => []

def chunkWords16 : Nat → List Nat → List (List Nat)
  | 0, _ => []
  | _, [] => []
  | fuel + 1, ws => ws.take 16 :: chunkWords16 fuel (ws.drop 16)

def sha1ExtendStep (ws : List Nat) : List Nat :=
  ws ++ [rotl32 1 ((ws.getD (ws.length - 3) 0) ^^^ (ws.getD (ws.length - 8) 0) ^^^
         (ws.getD (ws.length - 14) 0) ^^^ (ws.getD (ws.length - 16) 0))]

def sha1Extend : Nat → List Nat → List Nat
  | 0, ws => ws
  | k + 1, ws => sha1Extend k (sha1ExtendStep ws)

structure Sha1State where
  a : Nat
  b : Nat
  c : Nat
  d : Nat
  e : Nat
deriving DecidableEq

def sha1F (i b c d : Nat) : Nat :=
  if i < 20 then (b &&& c) ||| ((b ^^^ 4294967295) &&& d)
  else if i < 40 then b ^^^ c ^^^ d
  else if i < 60 then (b &&& c) ||| (b &&& d) ||| (c &&& d)
  else b ^^^ c ^^^ d

def sha1K (i : Nat) : Nat :=
  if i < 20 then 1518500249
  else if i < 40 then 1859775393
  else if i < 60 then 2400959708
  else 3395469782

def sha1Round (st : Sha1State) (i w : Nat) : Sha1State :=
  { a := w32 (rotl32 5 st.a + sha1F i st.b st.c st.d + st.e + sha1K i + w),
    b := st.a, c := rotl32 30 st.b, d := st.c, e := st.d }

def sha1Rounds (st : Sha1State) (i : Nat) : List Nat → Sha1State
  | [] => st
  | w :: rest => sha1Rounds (sha1Round st i w) (i + 1) rest

def sha1ProcessBlock (h : Sha1State) (block : List Nat) : Sha1State :=
  let st := sha1Rounds h 0 (sha1Extend 64 block)
  { a := w32 (h.a + st.a), b := w32 (h.b + st.b), c := w32 (h.c + st.c),
    d := w32 (h.d + st.d), e := w32 (h.e + st.e) }

def sha1Init : Sha1State :=
  { a := 1732584193, b := 4023233417, c := 2562383102, d := 271733878, e := 3285377520 }

/-- SHA-1 digest, 20 bytes. -/
def sha1 (msg : List Nat) : List Nat :=
  let ws := bytesToWords (sha1Pad msg)
  let h := (chunkWords16 ws.length ws).foldl sha1ProcessBlock sha1Init
  natToBytesBE 4 h.a ++ natToBytesBE 4 h.b ++ natToBytesBE 4 h.c ++
  natToBytesBE 4 h.d ++ natToBytesBE 4 h.e

def base64Alphabet : List Char :=
  String.data "ABCDEFGHIJKLMNOPQRSTUVWXYZabcdefghijklmnopqrstuvwxyz0123456789+/"

def b64Char (n : Nat) : Char := base64Alphabet.getD n 'A'

/-- RFC 4648 base64 with padding, as produced by Buffer.toString. -/
def base64Chunks : List Nat → List Char
  | [] => []
  | [b0] => [b64Char (b0 / 4), b64Char (b0 % 4 * 16), '=', '=']
  | [b0, b1] => [b64Char (b0 / 4), b64Char (b0 % 4 * 16 + b1 / 16), b64Char (b1 % 16 * 4), '=']
  | b0 :: b1 :: b2 :: rest =>
      b64Char (b0 / 4) :: b64Char (b0 % 4 * 16 + b1 / 16) ::
      b64Char (b1 % 16 * 4 + b2 / 64) :: b64Char (b2 % 64) :: base64Chunks rest

def base64Encode (bytes : List Nat) : String :=
  String.mk (base64Chunks bytes)

/-- ASCII bytes of a string (header values and GUID are ASCII). -/
def asciiBytes (s : String) : List Nat := s.data.map Char.toNat

def dropLeadingWs : List Char → List Char
  | [] => []
  | c :: rest => if c.isWhitespace then dropLeadingWs rest else c :: rest

/-- JavaScript String.prototype.trim: strip whitespace at both ends. -/
def trimString (s : String) : String :=
  String.mk (dropLeadingWs (dropLeadingWs s.data.reverse).reverse)

/-! ## Extension host supervisor (vscode-protocol.ts, ExtensionHost) -/

/-- `ExtensionHost`: owns the raw socket handed over at upgrade time, the
current protocol holder and the optional forked worker process (pid). -/
structure ExtensionHost where
  uriTransformerPath : String
  rawSocketId : Nat
  protocolHolder : VSCodeProtocolHolder
  extensionHostProcess : Option Nat
  disposed : Bool
deriving DecidableEq

/-- `ExtensionHost.connect(protocolHolder, debugPort)` (vscode-protocol.ts
lines 107-119): send a debugPort control message (or an empty object when
the port is falsy), snapshot `this.protocolHolder` entire buffer as the
base64 `initialDataChunk`, dispose the argument protocol and pause the
raw socket.  JavaScript treats port 0, null and undefined alike as falsy;
we collapse them to 0. -/
def ExtensionHost.connect (eh : ExtensionHost) (holder : VSCodeProtocolHolder)
    (debugPort : Nat) : List Ev × String :=
  let ctrl := if debugPort ≠ 0 then CtrlMsg.debugPortMsg debugPort else CtrlMsg.emptyObj
  let initialDataChunk := base64Encode eh.protocolHolder.buffered
  ([ Ev.sentControl holder.protocolId ctrl,
     Ev.disposedProtocol holder.protocolId,
     Ev.socketPaused eh.rawSocketId ],
   initialDataChunk)

/-- `ExtensionHost.sendExthostIpcSocket` (vscode-protocol.ts lines
254-270): drain the websocket, then send the VSCODE_EXTHOST_IPC_SOCKET
message together with the OS socket; `inflateBytes` is the base64 of the
websocket recorded inflate bytes and `skipWebSocketFrames` is read from
`this.protocolHolder`. -/
def ExtensionHost.sendExthostIpcSocket (eh : ExtensionHost)
    (wsSocket : WebSocketNodeSocket) (socketId : Nat) (pid : Nat)
    (initialDataChunk : String) (permessageDeflate : Bool) : List Ev :=
  [ Ev.socketDrained wsSocket.socketId,
    Ev.sentIpcSocketMsg pid
      { initialDataChunk := initialDataChunk,
        skipWebSocketFrames := eh.protocolHolder.skipWebSocketFrames,
        permessageDeflate := permessageDeflate,
        inflateBytes := base64Encode wsSocket.recordedInflateBytes }
      socketId ]

/-- `ExtensionHost.reconnect(protocolHolder, socket, debugPort)`
(vscode-protocol.ts lines 121-128): throw when no worker process exists,
otherwise run `connect` on the new protocol, replace the stored holder
and repeat the socket hand-off on the new socket. -/
def ExtensionHost.reconnect (eh : ExtensionHost) (holder : VSCodeProtocolHolder)
    (socketId : Nat) (debugPort : Nat) : Except String (List Ev × ExtensionHost) :=
  match eh.extensionHostProcess with
  | none => Except.error "Extension host process is not defined"
  | some pid =>
      let c := eh.connect holder debugPort
      let ehNew : ExtensionHost := { eh with protocolHolder := holder }
      Except.ok
        (c.1 ++ ehNew.sendExthostIpcSocket holder.webSocketNodeSocket socketId pid c.2
           holder.permessageDeflate,
         ehNew)

/-- `ExtensionHost.dispose` (vscode-protocol.ts lines 241-250): once
only; end the raw socket and kill the worker if one was forked. -/
def ExtensionHost.dispose (eh : ExtensionHost) : List Ev × ExtensionHost :=
  if eh.disposed then ([], eh)
  else
    (Ev.socketEnded eh.rawSocketId ::
       (match eh.extensionHostProcess with
        | some pid => [Ev.killedWorker pid]
        | none => []),
     { eh with disposed := true })

/-- Worker IPC messages received by the listeners that
`ExtensionHost.start` attaches on the forked process. -/
inductive WorkerMsg where
  | ipcReady
  | consoleMsg (severity : String) (args : String)
  | otherMsg (tag : String)
deriving DecidableEq

/-- The `onMessageReadyListener` of `ExtensionHost.start`
(vscode-protocol.ts lines 209-219) run over a stream of worker messages.
`installed` is whether the listener is still attached: a
VSCODE_EXTHOST_IPC_READY message removes the listener and performs the
socket hand-off; once removed, later messages are not handled. -/
def processReadyMessages (eh : ExtensionHost) (pid : Nat) (initialDataChunk : String)
    (installed : Bool) : List WorkerMsg → List Ev
  | [] => []
  | m :: rest =>
      if installed ∧ m = WorkerMsg.ipcReady then
        eh.sendExthostIpcSocket eh.protocolHolder.webSocketNodeSocket eh.rawSocketId pid
          initialDataChunk eh.protocolHolder.permessageDeflate
        ++ processReadyMessages eh pid initialDataChunk false rest
      else
        processReadyMessages eh pid initialDataChunk installed rest

/-! ## Extension-host table entry and dispatch (websocket-handler.ts) -/

/-- `ExtensionHostReconnectionDetails`: the extension-host-table entry.
`remoteStartParamsPort` is `remoteStartParams.port` (after any debug-port
validation). -/
structure ExtensionHostReconnectionDetails where
  protocolHolder : VSCodeProtocolHolder
  remoteStartParamsPort : Option Nat
  extensionHost : Option ExtensionHost
deriving DecidableEq

/-- Result of the ExtensionHost branch of the dispatch. -/
structure ExtHostDispatchResult where
  events : List Ev
  table : List (String × ExtensionHostReconnectionDetails)
  aborted : Bool

/-- The `ConnectionType.ExtensionHost` branch of
`CheWebsocketHandler.handleConnectionTypeRequest` (websocket-handler.ts
lines 189-240) followed, on the fresh path only, by the trailing ok
message (lines 245-246; the reconnect path returns early).  `reqPort` is
`connectionTypeRequest.args.port`; `freePort` stands for the free port
`validateDebugPort` picks when the requested port is 0; `freshPid` is
the pid the fork returns on the fresh path. -/
def handleExtensionHostConnection (table : List (String × ExtensionHostReconnectionDetails))
    (holder : VSCodeProtocolHolder) (rawSocketId freshPid freePort : Nat)
    (reqPort : Option Nat) : ExtHostDispatchResult :=
  match lookupTable table holder.reconnectionToken with
  | some details =>
      match details.extensionHost with
      | none =>
          { events := abortWebSocketConnection holder "Extension host is not defined",
            table := table, aborted := true }
      | some eh =>
          match eh.reconnect holder rawSocketId (details.remoteStartParamsPort.getD 0) with
          | Except.error msg =>
              { events := abortWebSocketConnection holder msg,
                table := table, aborted := true }
          | Except.ok r =>
              { events := r.1,
                table := setTable table holder.reconnectionToken
                  { details with extensionHost := some r.2 },
                aborted := false }
  | none =>
      if holder.isReconnecting then
        { events := abortWebSocketConnection holder
            "Reconnecting but no previous connection has been found. Aborting.",
          table := table, aborted := true }
      else
        let validatedPort := if reqPort = some 0 then some freePort else reqPort
        let eh0 : ExtensionHost :=
          { uriTransformerPath := "", rawSocketId := rawSocketId,
            protocolHolder := holder, extensionHostProcess := none, disposed := false }
        let c := eh0.connect holder (validatedPort.getD 0)
        let ehStarted : ExtensionHost := { eh0 with extensionHostProcess := some freshPid }
        { events := c.1 ++ [Ev.forkedWorker freshPid, Ev.sentControl holder.protocolId CtrlMsg.ok],
          table := setTable table holder.reconnectionToken
            { protocolHolder := holder, remoteStartParamsPort := validatedPort,
              extensionHost := some ehStarted },
          aborted := false }

/-! ## Websocket upgrade (websocket-upgrade.ts, WebsocketUpgrade) -/

/-- Value of one parameter inside a Sec-WebSocket-Extensions offer as
produced by the header parsing: a parameter offered without a value
carries the flag `true`, otherwise a numeric value.  The source tests
`params.client_max_window_bits[0] === true` for the valueless case. -/
inductive ExtParamValue where
  | offerFlag
  | num (n : Nat)
deriving DecidableEq

structure ExtParam where
  name : String
  value : ExtParamValue
deriving DecidableEq

/-- The upgrade request: the Sec-WebSocket-Key header if present, and the
permessage-deflate offers obtained from parsing Sec-WebSocket-Extensions
(none when the client offered no permessage-deflate).  The textual
parsing of the extensions header is done by the HeaderParser class, whose
implementation is outside the handled sources; we start from its parsed
result. -/
structure UpgradeRequest where
  secWebsocketKey : Option String
  permessageDeflateOffers : Option (List (List ExtParam))
deriving DecidableEq

def websocketGuid : String := "258EAFA5-E914-47DA-95CA-C5AB0DC85B11"

/-- The normalization loop of `WebsocketUpgrade.upgradeSocket`: a
`client_max_window_bits` parameter offered without a value is replaced by
the default 15; every other parameter is kept as offered. -/
def normalizeExtParam (p : ExtParam) : ExtParam :=
  if p.name = "client_max_window_bits" ∧ p.value = ExtParamValue.offerFlag then
    { name := p.name, value := ExtParamValue.num 15 }
  else p

def normalizeExtParams (ps : List ExtParam) : List ExtParam :=
  ps.map normalizeExtParam

/-- Modelled from the spec: `HeaderParser.format`, whose implementation
is outside the handled sources, serialises the (normalized) offers back
into a Sec-WebSocket-Extensions header value: each offer is the
extension name followed by its parameters, valueless parameters as a
bare name and valued ones as name=value, offers separated by commas. -/
def formatExtParam (p : ExtParam) : String :=
  match p.value with
  | ExtParamValue.offerFlag => p.name
  | ExtParamValue.num n => p.name ++ "=" ++ toString n

def formatPermessageDeflateOffer (ps : List ExtParam) : String :=
  ps.foldl (fun acc p => acc ++ "; " ++ formatExtParam p) "permessage-deflate"

def formatPermessageDeflate (offers : List (List ExtParam)) : String :=
  String.intercalate ", " (offers.map formatPermessageDeflateOffer)

/-- `WebsocketUpgrade.upgradeSocket` (websocket-upgrade.ts lines
372-436): compute the accept digest from the (trimmed) key — when the
header is missing the JavaScript `false` is coerced into the string
"false" by the concatenation — build the 101 response headers, echo a
normalized permessage-deflate offer back when present, and construct the
websocket channel.  Returns the written header lines and the
permessageDeflate flag of the constructed `WebSocketNodeSocket`.
No branch of the source writes an HTTP 400 response. -/
def upgradeSocket (req : UpgradeRequest) : List String × Bool :=
  let key := match req.secWebsocketKey with
    | some k => trimString k
    | none => "false"
  let digest := base64Encode (sha1 (asciiBytes (key ++ websocketGuid)))
  let baseHeaders :=
    [ "HTTP/1.1 101 Switching Protocols",
      "Upgrade: websocket",
      "Connection: Upgrade",
      "Sec-WebSocket-Accept: " ++ digest ]
  match req.permessageDeflateOffers with
  | some offers =>
      (baseHeaders ++
        ["Sec-WebSocket-Extensions: " ++ formatPermessageDeflate (offers.map normalizeExtParams)],
       true)
  | none => (baseHeaders, false)

/-! ## CheWebsocketHandler.handle (websocket-handler.ts lines 104-145) -/

/-- A query-string value as parseQuery returns it: absent, a single
string, or an array when the parameter is repeated. -/
inductive QueryVal where
  | missing
  | single (s : String)
  | array (ss : List String)
deriving DecidableEq

/-- The parsed query of the upgrade URL. -/
structure HandleQuery where
  reconnectionToken : QueryVal
  reconnection : Bool
  skipWebSocketFrames : Bool
deriving DecidableEq

/-- The falsy-or-array test of websocket-handler.ts line 125:
`!reconnectionToken || isArray(reconnectionToken)`. -/
def tokenRejected (v : QueryVal) : Bool :=
  match v with
  | QueryVal.missing => true
  | QueryVal.single s => s = ""
  | QueryVal.array _ => true

/-- Result of `CheWebsocketHandler.handle`: the events on the raw
socket, and the protocol holder if one was constructed.  Only through a
constructed holder can control messages reach
`handleConnectionTypeRequest`, so no holder implies no table mutation. -/
structure HandleResult where
  events : List Ev
  holder : Option VSCodeProtocolHolder
deriving DecidableEq

/-- `CheWebsocketHandler.handle` (websocket-handler.ts lines 104-145):
upgrade the socket first (writing the 101 response), then reject the
request with a 400 when the reconnectionToken is falsy or repeated;
otherwise construct the protocol holder and subscribe to control
messages.  `rawSocketId` and `wsId` are the identities of the raw socket
and of the new websocket wrapper; `wsInflate` its recorded inflate
bytes (empty at creation); `protocolId` the identity of the new
persistent protocol. -/
def CheWebsocketHandler.handle (req : UpgradeRequest) (q : HandleQuery)
    (rawSocketId wsId protocolId : Nat) : HandleResult :=
  let up := upgradeSocket req
  let upgradeEvents := [Ev.wroteHttp rawSocketId (String.intercalate "\r\n" (up.1 ++ ["\r\n"]))]
  if tokenRejected q.reconnectionToken then
    { events := upgradeEvents ++ [Ev.endedWithData rawSocketId "HTTP/1.1 400 Bad Request\r\n\r\n"],
      holder := none }
  else
    match q.reconnectionToken with
    | QueryVal.single tok =>
        { events := upgradeEvents,
          holder := some
            { webSocketNodeSocket := { socketId := wsId, recordedInflateBytes := [] },
              protocolId := protocolId,
              reconnection := q.reconnection,
              reconnectionToken := tok,
              permessageDeflate := up.2,
              skipWebSocketFrames := q.skipWebSocketFrames,
              buffered := [] } }
    | _ => { events := upgradeEvents, holder := none }

/-! ## URI transformer (che-uri-transformer.js) -/

/-- The UriParts exchanged with the raw URI transformer. -/
structure UriParts where
  scheme : String
  authority : Option String
  path : Option String
deriving DecidableEq

/-- `transformIncoming` (che-uri-transformer.js lines 27-35). -/
def transformIncoming (uri : UriParts) : UriParts :=
  if uri.scheme = "file" then
    { scheme := "vscode-local", authority := none, path := uri.path }
  else if uri.scheme = "vscode-remote" then
    { scheme := "file", authority := none, path := uri.path }
  else uri

/-- `transformOutgoing` (che-uri-transformer.js lines 41-49). -/
def transformOutgoing (remoteAuthority : String) (uri : UriParts) : UriParts :=
  if uri.scheme = "file" then
    { scheme := "vscode-remote", authority := some remoteAuthority, path := uri.path }
  else if uri.scheme = "vscode-local" then
    { scheme := "file", authority := none, path := uri.path }
  else uri

/-- `transformOutgoingScheme` (che-uri-transformer.js lines 55-63). -/
def transformOutgoingScheme (scheme : String) : String :=
  if scheme = "file" then "vscode-remote"
  else if scheme = "vscode-local" then "file"
  else scheme

/-! ## Remote filesystem channel (remote-filesystem-channel.ts) -/

/-- The two per-channel maps of `RemoteFileSystemChannel`: watcher
providers and watch disposables, both keyed by strings; values are
object identities. -/
structure RemoteFileSystemChannelState where
  fileWatchers : List (String × Nat)
  fileWatcherDisposables : List (String × Nat)
deriving DecidableEq

/-- The `onFirstListenerAdd` hook of the `filechange` listen event
(remote-filesystem-channel.ts lines 149-156): store a fresh
DiskFileSystemProvider under `arg[0]`, the session id alone. -/
def RemoteFileSystemChannelState.listenFilechangeFirstAdd
    (st : RemoteFileSystemChannelState) (sessionId : String) (providerId : Nat) :
    RemoteFileSystemChannelState :=
  { st with fileWatchers := setTable st.fileWatchers sessionId providerId }

/-- The `watch` command of `RemoteFileSystemChannel.call`
(remote-filesystem-channel.ts lines 80-111): look up a watcher under the
concatenated key `arg[0] + arg[1]` (session id and watch id); when one
is found, call watch on it and store the disposable under the same key;
in both cases the call returns undefined.  The boolean reports whether a
watcher was registered. -/
def RemoteFileSystemChannelState.callWatch (st : RemoteFileSystemChannelState)
    (sessionId watchId : String) (watchDisposableId : Nat) :
    RemoteFileSystemChannelState × Bool :=
  let watchKey := sessionId ++ watchId
  match lookupTable st.fileWatchers watchKey with
  | some _ =>
      ({ st with fileWatcherDisposables := setTable st.fileWatcherDisposables watchKey watchDisposableId },
       true)
  | none => (st, false)

/-- A channel state produced by `filechange` listen events alone,
starting from the empty state: exactly the states the source can reach
before any watch call, since only the `filechange` first-listener hook
ever inserts into `fileWatchers`. -/
def stateFromFilechangeListens : List (String × Nat) → RemoteFileSystemChannelState
  | [] => { fileWatchers := [], fileWatcherDisposables := [] }
  | (sid, pid) :: rest =>
      (stateFromFilechangeListens rest).listenFilechangeFirstAdd sid pid

/-! ## Claim propositions and sample values -/

/-- The management-reconnect behaviour as the specification states it:
the ok control message goes out on the stored (old) protocol, the old
protocol is swapped onto the new socket fed with the drained buffer of
the new protocol, and the new protocol wrapper is disposed. -/
def managementReconnectSendsOkOnStored (details : ManagementReconnectionDetails)
    (newHolder : VSCodeProtocolHolder) : Prop :=
  Ev.sentControl details.protocolHolder.protocolId CtrlMsg.ok ∈ details.reconnect newHolder
  ∧ Ev.beganAcceptReconnection details.protocolHolder.protocolId
      newHolder.webSocketNodeSocket.socketId newHolder.buffered ∈ details.reconnect newHolder
  ∧ Ev.endedAcceptReconnection details.protocolHolder.protocolId ∈ details.reconnect newHolder
  ∧ Ev.disposedProtocol newHolder.protocolId ∈ details.reconnect newHolder

/-- The table part of the management-disposal behaviour as the
specification states it: after disposing the session of `token`, a
lookup of that token finds no entry. -/
def managementDisposeDropsEntry (table : List (String × ManagementReconnectionDetails))
    (token : String) : Prop :=
  lookupTable (disposeManagementSession table token).2 token = none

/-- Sample websocket of a first connection. -/
def wsA : WebSocketNodeSocket := { socketId := 10, recordedInflateBytes := [1, 2] }

/-- Sample websocket of a reconnecting connection. -/
def wsB : WebSocketNodeSocket := { socketId := 11, recordedInflateBytes := [] }

/-- Sample holder of a first connection for token T1. -/
def holderA : VSCodeProtocolHolder :=
  { webSocketNodeSocket := wsA, protocolId := 0, reconnection := false,
    reconnectionToken := "T1", permessageDeflate := false,
    skipWebSocketFrames := false, buffered := [] }

/-- Sample holder of a reconnecting connection for token T1. -/
def holderB : VSCodeProtocolHolder :=
  { webSocketNodeSocket := wsB, protocolId := 1, reconnection := true,
    reconnectionToken := "T1", permessageDeflate := true,
    skipWebSocketFrames := false, buffered := [7, 8] }

/-- Sample management-table entry for token T1. -/
def detailsA : ManagementReconnectionDetails :=
  { protocolHolder := holderA, disposed := false }

/-- Sample extension host with a forked worker of pid 42. -/
def ehA : ExtensionHost :=
  { uriTransformerPath := "p", rawSocketId := 3, protocolHolder := holderA,
    extensionHostProcess := some 42, disposed := false }

/-- Sample extension-host-table entry for token T1. -/
def extDetailsA : ExtensionHostReconnectionDetails :=
  { protocolHolder := holderA, remoteStartParamsPort := some 9229, extensionHost := some ehA }

/-- Sample upgrade request with the RFC 6455 example key and a
permessage-deflate offer with a valueless client_max_window_bits. -/
def reqRfc : UpgradeRequest :=
  { secWebsocketKey := some "dGhlIHNhbXBsZSBub25jZQ==",
    permessageDeflateOffers := some
      [[ { name := "client_max_window_bits", value := ExtParamValue.offerFlag },
         { name := "server_max_window_bits", value := ExtParamValue.num 10 } ]] }

/-- Sample upgrade request without a Sec-WebSocket-Key header. -/
def reqNoKey : UpgradeRequest :=
  { secWebsocketKey := none, permessageDeflateOffers := none }

/-- Whether a header line is an HTTP 400 status line. -/
def isStatus400Line (line : String) : Bool :=
  List.isPrefixOf "HTTP/1.1 400".data line.data

/-! ## Helper lemmas -/

theorem lookupTable_eraseTable_ne {α : Type} (t : List (String × α)) (ek key : String)
    (h : key ≠ ek) : lookupTable (eraseTable t ek) key = lookupTable t key := by
  induction t with
  | nil => rfl
  | cons p rest ih =>
      obtain ⟨pk, pv⟩ := p
      by_cases hk : ek = pk
      · subst hk
        simp [eraseTable, lookupTable, h, ih]
      · by_cases hkey : key = pk
        · simp [eraseTable, lookupTable, hk, hkey]
        · simp [eraseTable, lookupTable, hk, hkey, ih]

theorem lookupTable_setTable_self {α : Type} (t : List (String × α)) (k : String) (v : α) :
    lookupTable (setTable t k v) k = some v := by
  simp [setTable, lookupTable]

theorem lookupTable_setTable_ne {α : Type} (t : List (String × α)) (k key : String) (v : α)
    (h : key ≠ k) : lookupTable (setTable t k v) key = lookupTable t key := by
  simp [setTable, lookupTable, h, lookupTable_eraseTable_ne t k key h]

theorem append_ne_of_ne_empty (s t : String) (h : t ≠ "") : s ++ t ≠ s := by
  intro he
  apply h
  have hl := congrArg String.length he
  rw [String.length_append] at hl
  have h0 : t.data.length = 0 := by
    have : t.length = 0 := by omega
    exact this
  have hd : t.data = [] := List.length_eq_zero.mp h0
  cases t with
  | mk d => simp_all

theorem lookup_fileWatchers_not_listened (listens : List (String × Nat)) (key : String)
    (h : ∀ p ∈ listens, key ≠ p.1) :
    lookupTable (stateFromFilechangeListens listens).fileWatchers key = none := by
  induction listens with
  | nil => rfl
  | cons p rest ih =>
      obtain ⟨sid, pid⟩ := p
      have hk : key ≠ sid := h (sid, pid) (List.mem_cons_self _ _)
      have hrest : ∀ q ∈ rest, key ≠ q.1 := fun q hq => h q (List.mem_cons_of_mem _ hq)
      simp [stateFromFilechangeListens, RemoteFileSystemChannelState.listenFilechangeFirstAdd,
            lookupTable_setTable_ne _ _ _ _ hk, ih hrest]

theorem processReadyMessages_removed (eh : ExtensionHost) (pid : Nat) (chunk : String) :
    ∀ msgs : List WorkerMsg, processReadyMessages eh pid chunk false msgs = [] := by
  intro msgs
  induction msgs with
  | nil => rfl
  | cons m rest ih => simp [processReadyMessages, ih]

/-! ## Claims -/

/-- C1, counterexample: at a concrete resident management entry
(protocol id 0) and a concrete reconnecting holder (protocol id 1), the
claim that `reconnect` sends the ok control message on the OLD (stored)
protocol is false: the events of `reconnect` contain no ok on protocol
0; the ok goes out on the new protocol 1. -/
theorem management_reconnect_claim_counterexample :
    ¬ managementReconnectSendsOkOnStored detailsA holderB := by
  unfold managementReconnectSendsOkOnStored
  decide

/-- C1 (amended): on a management connect whose reconnection token is
already present in the management table, the broker calls `reconnect`
with the new protocol; that reconnect sends the ok message on the NEW
protocol, swaps the old protocol onto the new socket by feeding it the
new protocol drained buffer via beginAcceptReconnection and
endAcceptReconnection, and disposes the new protocol wrapper (the
dispatch then sends a second ok on the new protocol). -/
theorem management_reconnect_ok_on_new_protocol
    (table : List (String × ManagementReconnectionDetails))
    (holder : VSCodeProtocolHolder) (details : ManagementReconnectionDetails)
    (hlook : lookupTable table holder.reconnectionToken = some details) :
    (handleManagementConnection table holder).events =
      [ Ev.sentControl holder.protocolId CtrlMsg.ok,
        Ev.beganAcceptReconnection details.protocolHolder.protocolId
          holder.webSocketNodeSocket.socketId holder.buffered,
        Ev.endedAcceptReconnection details.protocolHolder.protocolId,
        Ev.disposedProtocol holder.protocolId,
        Ev.sentControl holder.protocolId CtrlMsg.ok ] := by
  simp [handleManagementConnection, hlook, ManagementReconnectionDetails.reconnect]

/-- C1 witness: the amended theorem evaluated at a concrete resident
entry and reconnecting holder. -/
theorem management_reconnect_ok_on_new_protocol_witness :
    lookupTable [("T1", detailsA)] holderB.reconnectionToken = some detailsA ∧
    (handleManagementConnection [("T1", detailsA)] holderB).events =
      [ Ev.sentControl holderB.protocolId CtrlMsg.ok,
        Ev.beganAcceptReconnection detailsA.protocolHolder.protocolId
          holderB.webSocketNodeSocket.socketId holderB.buffered,
        Ev.endedAcceptReconnection detailsA.protocolHolder.protocolId,
        Ev.disposedProtocol holderB.protocolId,
        Ev.sentControl holderB.protocolId CtrlMsg.ok ] :=
  ⟨by decide, management_reconnect_ok_on_new_protocol _ _ _ (by decide)⟩

/-- C2: a connectionType request with reconnection true whose token has
no entry in the corresponding table is aborted on both paths: an error
control message with a human-readable reason (exactly "Asking to
reconnect but provided token is unknown" on the management path) is
sent, the persistent protocol is disposed, the websocket is drained and
disposed, and no table entry is created. -/
theorem unknown_token_reconnect_aborts
    (mgmtTable : List (String × ManagementReconnectionDetails))
    (extTable : List (String × ExtensionHostReconnectionDetails))
    (holder : VSCodeProtocolHolder) (rawSocketId freshPid freePort : Nat)
    (reqPort : Option Nat)
    (hrec : holder.reconnection = true)
    (hm : lookupTable mgmtTable holder.reconnectionToken = none)
    (he : lookupTable extTable holder.reconnectionToken = none) :
    (handleManagementConnection mgmtTable holder).events =
      [ Ev.sentControl holder.protocolId
          (CtrlMsg.error "Asking to reconnect but provided token is unknown"),
        Ev.disposedProtocol holder.protocolId,
        Ev.socketDrained holder.webSocketNodeSocket.socketId,
        Ev.socketDisposed holder.webSocketNodeSocket.socketId ]
    ∧ (handleManagementConnection mgmtTable holder).table = mgmtTable
    ∧ lookupTable (handleManagementConnection mgmtTable holder).table
        holder.reconnectionToken = none
    ∧ (handleExtensionHostConnection extTable holder rawSocketId freshPid freePort reqPort).events =
      [ Ev.sentControl holder.protocolId
          (CtrlMsg.error "Reconnecting but no previous connection has been found. Aborting."),
        Ev.disposedProtocol holder.protocolId,
        Ev.socketDrained holder.webSocketNodeSocket.socketId,
        Ev.socketDisposed holder.webSocketNodeSocket.socketId ]
    ∧ (handleExtensionHostConnection extTable holder rawSocketId freshPid freePort reqPort).table
        = extTable
    ∧ lookupTable
        (handleExtensionHostConnection extTable holder rawSocketId freshPid freePort reqPort).table
        holder.reconnectionToken = none := by
  simp [handleManagementConnection, handleExtensionHostConnection, hm, he,
        VSCodeProtocolHolder.isReconnecting, hrec, abortWebSocketConnection]

/-- C2 witness: the abort behaviour evaluated at empty tables and a
concrete reconnecting holder. -/
theorem unknown_token_reconnect_aborts_witness :
    holderB.reconnection = true ∧
    lookupTable ([] : List (String × ManagementReconnectionDetails))
      holderB.reconnectionToken = none ∧
    lookupTable ([] : List (String × ExtensionHostReconnectionDetails))
      holderB.reconnectionToken = none ∧
    ((handleManagementConnection [] holderB).events =
      [ Ev.sentControl holderB.protocolId
          (CtrlMsg.error "Asking to reconnect but provided token is unknown"),
        Ev.disposedProtocol holderB.protocolId,
        Ev.socketDrained holderB.webSocketNodeSocket.socketId,
        Ev.socketDisposed holderB.webSocketNodeSocket.socketId ]
    ∧ (handleManagementConnection [] holderB).table = []
    ∧ lookupTable (handleManagementConnection [] holderB).table
        holderB.reconnectionToken = none
    ∧ (handleExtensionHostConnection [] holderB 3 42 9229 none).events =
      [ Ev.sentControl holderB.protocolId
          (CtrlMsg.error "Reconnecting but no previous connection has been found. Aborting."),
        Ev.disposedProtocol holderB.protocolId,
        Ev.socketDrained holderB.webSocketNodeSocket.socketId,
        Ev.socketDisposed holderB.webSocketNodeSocket.socketId ]
    ∧ (handleExtensionHostConnection [] holderB 3 42 9229 none).table = []
    ∧ lookupTable (handleExtensionHostConnection [] holderB 3 42 9229 none).table
        holderB.reconnectionToken = none) :=
  ⟨by decide, by decide, by decide,
   unknown_token_reconnect_aborts [] [] holderB 3 42 9229 none (by decide) (by decide) (by decide)⟩

/-- C3: handling a reconnection for an extension-host session whose
entry holds an ExtensionHost with a forked worker calls `reconnect` on
that ExtensionHost: no fork and no kill event occurs, the dispatch does
not abort, and the worker pid stored after the dispatch equals the pid
stored before. -/
theorem exthost_reconnect_preserves_worker
    (table : List (String × ExtensionHostReconnectionDetails))
    (holder : VSCodeProtocolHolder) (rawSocketId freshPid freePort : Nat)
    (reqPort : Option Nat) (details : ExtensionHostReconnectionDetails)
    (eh : ExtensionHost) (pid : Nat)
    (_hrec : holder.reconnection = true)
    (hlook : lookupTable table holder.reconnectionToken = some details)
    (hh : details.extensionHost = some eh)
    (hp : eh.extensionHostProcess = some pid) :
    (∀ q, Ev.forkedWorker q ∉
        (handleExtensionHostConnection table holder rawSocketId freshPid freePort reqPort).events)
    ∧ (∀ q, Ev.killedWorker q ∉
        (handleExtensionHostConnection table holder rawSocketId freshPid freePort reqPort).events)
    ∧ (handleExtensionHostConnection table holder rawSocketId freshPid freePort reqPort).aborted
        = false
    ∧ lookupTable
        (handleExtensionHostConnection table holder rawSocketId freshPid freePort reqPort).table
        holder.reconnectionToken =
        some { details with extensionHost := some { eh with protocolHolder := holder } }
    ∧ ({ eh with protocolHolder := holder } : ExtensionHost).extensionHostProcess = some pid := by
  simp [handleExtensionHostConnection, hlook, hh, ExtensionHost.reconnect, hp,
        ExtensionHost.connect, ExtensionHost.sendExthostIpcSocket, lookupTable_setTable_self]

/-- C3 witness: the reconnect dispatch evaluated at a concrete
extension-host entry whose worker has pid 42. -/
theorem exthost_reconnect_preserves_worker_witness :
    holderB.reconnection = true ∧
    lookupTable [("T1", extDetailsA)] holderB.reconnectionToken = some extDetailsA ∧
    extDetailsA.extensionHost = some ehA ∧
    ehA.extensionHostProcess = some 42 ∧
    ((∀ q, Ev.forkedWorker q ∉
        (handleExtensionHostConnection [("T1", extDetailsA)] holderB 3 77 9229 none).events)
    ∧ (∀ q, Ev.killedWorker q ∉
        (handleExtensionHostConnection [("T1", extDetailsA)] holderB 3 77 9229 none).events)
    ∧ (handleExtensionHostConnection [("T1", extDetailsA)] holderB 3 77 9229 none).aborted = false
    ∧ lookupTable
        (handleExtensionHostConnection [("T1", extDetailsA)] holderB 3 77 9229 none).table
        holderB.reconnectionToken =
        some { extDetailsA with extensionHost := some { ehA with protocolHolder := holderB } }
    ∧ ({ ehA with protocolHolder := holderB } : ExtensionHost).extensionHostProcess = some 42) :=
  ⟨by decide, by decide, by decide, by decide,
   exthost_reconnect_preserves_worker [("T1", extDetailsA)] holderB 3 77 9229 none
     extDetailsA ehA 42 (by decide) (by decide) (by decide) (by decide)⟩

/-- C7, counterexample: with the management table holding the entry of
token T1, disposing that session does NOT remove the entry: the claim
that a later lookup of the token finds no entry is false at this
concrete state. -/
theorem management_dispose_claim_counterexample :
    ¬ managementDisposeDropsEntry [("T1", detailsA)] "T1" := by
  unfold managementDisposeDropsEntry
  decide

/-- C7 (amended): when a management session resident in the table is
disposed, a disconnect control message is sent on its protocol, the
protocol is disposed and the socket is ended, but the entry is NOT
removed from the management table: a later lookup of the same token
still finds the (now disposed) entry. -/
theorem management_dispose_keeps_table_entry
    (table : List (String × ManagementReconnectionDetails)) (token : String)
    (details : ManagementReconnectionDetails)
    (hlook : lookupTable table token = some details)
    (hnd : details.disposed = false) :
    (disposeManagementSession table token).1 =
      [ Ev.sentDisconnect details.protocolHolder.protocolId,
        Ev.disposedProtocol details.protocolHolder.protocolId,
        Ev.socketEnded details.protocolHolder.webSocketNodeSocket.socketId ]
    ∧ lookupTable (disposeManagementSession table token).2 token =
        some { details with disposed := true } := by
  simp [disposeManagementSession, hlook, ManagementReconnectionDetails.dispose, hnd,
        lookupTable_setTable_self]

/-- C7 witness: the amended disposal behaviour evaluated at the concrete
one-entry table. -/
theorem management_dispose_keeps_table_entry_witness :
    lookupTable [("T1", detailsA)] "T1" = some detailsA ∧
    detailsA.disposed = false ∧
    ((disposeManagementSession [("T1", detailsA)] "T1").1 =
      [ Ev.sentDisconnect detailsA.protocolHolder.protocolId,
        Ev.disposedProtocol detailsA.protocolHolder.protocolId,
        Ev.socketEnded detailsA.protocolHolder.webSocketNodeSocket.socketId ]
    ∧ lookupTable (disposeManagementSession [("T1", detailsA)] "T1").2 "T1" =
        some { detailsA with disposed := true }) :=
  ⟨by decide, by decide,
   management_dispose_keeps_table_entry [("T1", detailsA)] "T1" detailsA (by decide) (by decide)⟩

/-- C8: a websocket upgrade whose query has no reconnectionToken or has
it as an array is answered with HTTP/1.1 400 Bad Request on the socket
(which `end` closes), and no protocol holder is constructed — hence no
control-message subscription and no session entry can ever be created
for this connection. -/
theorem invalid_reconnection_token_rejected
    (req : UpgradeRequest) (q : HandleQuery) (rawSocketId wsId protocolId : Nat)
    (h : q.reconnectionToken = QueryVal.missing
         ∨ ∃ ss, q.reconnectionToken = QueryVal.array ss) :
    Ev.endedWithData rawSocketId "HTTP/1.1 400 Bad Request\r\n\r\n"
        ∈ (CheWebsocketHandler.handle req q rawSocketId wsId protocolId).events
    ∧ (CheWebsocketHandler.handle req q rawSocketId wsId protocolId).holder = none := by
  have hrej : tokenRejected q.reconnectionToken = true := by
    rcases h with h1 | ⟨ss, h2⟩
    · simp [tokenRejected, h1]
    · simp [tokenRejected, h2]
  simp [CheWebsocketHandler.handle, hrej]

/-- C8 witness: the rejection evaluated at a concrete query whose token
parameter is missing. -/
theorem invalid_reconnection_token_rejected_witness :
    ({ reconnectionToken := QueryVal.missing, reconnection := false,
       skipWebSocketFrames := false } : HandleQuery).reconnectionToken = QueryVal.missing ∧
    (Ev.endedWithData 5 "HTTP/1.1 400 Bad Request\r\n\r\n"
        ∈ (CheWebsocketHandler.handle reqRfc
            { reconnectionToken := QueryVal.missing, reconnection := false,
              skipWebSocketFrames := false } 5 6 7).events
    ∧ (CheWebsocketHandler.handle reqRfc
        { reconnectionToken := QueryVal.missing, reconnection := false,
          skipWebSocketFrames := false } 5 6 7).holder = none) :=
  ⟨rfl,
   invalid_reconnection_token_rejected reqRfc
     { reconnectionToken := QueryVal.missing, reconnection := false,
       skipWebSocketFrames := false } 5 6 7 (Or.inl rfl)⟩

/-- C9, counterexample: for the vscode-remote URI with authority
other:9999 and session authority localhost:8080, the round trip
transformOutgoing after transformIncoming does not give back the
original URI: the authority is replaced by the session authority. -/
theorem uri_roundtrip_claim_counterexample :
    transformOutgoing "localhost:8080" (transformIncoming
      { scheme := "vscode-remote", authority := some "other:9999", path := some "/p" }) ≠
      { scheme := "vscode-remote", authority := some "other:9999", path := some "/p" } := by
  decide

/-- C9 (amended): for every URI with scheme vscode-remote whose
authority IS the session authority, the round trip restores the URI:
transformIncoming maps it to scheme file keeping the path, and
transformOutgoing maps file back to vscode-remote applying the session
authority. -/
theorem uri_roundtrip_with_session_authority
    (remoteAuthority : String) (u : UriParts)
    (hs : u.scheme = "vscode-remote")
    (ha : u.authority = some remoteAuthority) :
    transformOutgoing remoteAuthority (transformIncoming u) = u := by
  obtain ⟨s, a, p⟩ := u
  simp only at hs ha
  subst hs
  subst ha
  simp [transformIncoming, transformOutgoing]

/-- C9 witness: the amended round trip evaluated at a concrete URI
carrying the session authority. -/
theorem uri_roundtrip_with_session_authority_witness :
    ({ scheme := "vscode-remote", authority := some "localhost:8080",
       path := some "/p" } : UriParts).scheme = "vscode-remote" ∧
    ({ scheme := "vscode-remote", authority := some "localhost:8080",
       path := some "/p" } : UriParts).authority = some "localhost:8080" ∧
    transformOutgoing "localhost:8080" (transformIncoming
      { scheme := "vscode-remote", authority := some "localhost:8080", path := some "/p" }) =
      { scheme := "vscode-remote", authority := some "localhost:8080", path := some "/p" } :=
  ⟨rfl, rfl,
   uri_roundtrip_with_session_authority "localhost:8080"
     { scheme := "vscode-remote", authority := some "localhost:8080", path := some "/p" }
     rfl rfl⟩

/-- C10: on the remote filesystem channel, in any state whose
fileWatchers entries come from filechange listen events (stored under
the session id alone), a watch call with a non-empty watch id whose
concatenated lookup key collides with no stored session id registers no
watcher, leaves the state unchanged and returns undefined; in
particular the lookup key always differs from the own session id key
used by the store. -/
theorem watch_key_mismatch_never_registers
    (listens : List (String × Nat)) (sessionId watchId : String) (dId : Nat)
    (hw : watchId ≠ "")
    (hnc : ∀ p ∈ listens, sessionId ++ watchId ≠ p.1) :
    (stateFromFilechangeListens listens).callWatch sessionId watchId dId =
      (stateFromFilechangeListens listens, false)
    ∧ sessionId ++ watchId ≠ sessionId := by
  constructor
  · have hnone := lookup_fileWatchers_not_listened listens (sessionId ++ watchId) hnc
    simp [RemoteFileSystemChannelState.callWatch, hnone]
  · exact append_ne_of_ne_empty sessionId watchId hw

/-- C10 witness: the watch miss evaluated at the state of one filechange
listener for session S1 and a watch call with watch id 0.1. -/
theorem watch_key_mismatch_never_registers_witness :
    ("0.1" : String) ≠ "" ∧
    (∀ p ∈ [(("S1" : String), (5 : Nat))], ("S1" : String) ++ "0.1" ≠ p.1) ∧
    ((stateFromFilechangeListens [("S1", 5)]).callWatch "S1" "0.1" 9 =
      (stateFromFilechangeListens [("S1", 5)], false)
    ∧ ("S1" : String) ++ "0.1" ≠ "S1") :=
  ⟨by decide, by decide,
   watch_key_mismatch_never_registers [("S1", 5)] "S1" "0.1" 9 (by decide) (by decide)⟩

/-- C4: for every ExtensionHost.start invocation, the ready listener is
one-shot: run over any stream of worker messages, it produces exactly
one hand-off — drain the websocket, then one VSCODE_EXTHOST_IPC_SOCKET
message carrying the initialDataChunk, the skipWebSocketFrames and
permessageDeflate flags and inflateBytes equal to the base64 encoding
of the recorded inflate bytes, sent together with the OS socket — when
the stream contains a VSCODE_EXTHOST_IPC_READY message, and none
otherwise. -/
theorem exthost_ipc_handoff_exactly_once (eh : ExtensionHost) (pid : Nat) (chunk : String)
    (msgs : List WorkerMsg) :
    processReadyMessages eh pid chunk true msgs =
      (if WorkerMsg.ipcReady ∈ msgs then
        [ Ev.socketDrained eh.protocolHolder.webSocketNodeSocket.socketId,
          Ev.sentIpcSocketMsg pid
            { initialDataChunk := chunk,
              skipWebSocketFrames := eh.protocolHolder.skipWebSocketFrames,
              permessageDeflate := eh.protocolHolder.permessageDeflate,
              inflateBytes := base64Encode eh.protocolHolder.webSocketNodeSocket.recordedInflateBytes }
            eh.rawSocketId ]
      else []) := by
  induction msgs with
  | nil => rfl
  | cons m rest ih =>
      by_cases hm : m = WorkerMsg.ipcReady
      · subst hm
        simp [processReadyMessages, ExtensionHost.sendExthostIpcSocket,
              processReadyMessages_removed]
      · simp [processReadyMessages, hm, Ne.symm hm, ih]

set_option maxRecDepth 100000

/-- C5: contrary to the claim, a websocket upgrade request whose
Sec-WebSocket-Key header is missing is NOT rejected with HTTP/1.1 400:
`upgradeSocket` coerces the missing key to the string "false", writes
the full 101 Switching Protocols response with an accept digest computed
from that string, and constructs the framed channel; no written line is
a 400 status line. -/
theorem missing_websocket_key_still_writes_101 :
    upgradeSocket reqNoKey =
      (["HTTP/1.1 101 Switching Protocols", "Upgrade: websocket", "Connection: Upgrade",
        "Sec-WebSocket-Accept: 0vHMXNbHajN8IWuAr4/bs2hCQgk="], false)
    ∧ ∀ line ∈ (upgradeSocket reqNoKey).1, isStatus400Line line = false := by
  decide

/-- C6: for every upgrade request carrying a Sec-WebSocket-Key (header
values carry no surrounding whitespace, so trimming is the identity),
the 101 response contains Sec-WebSocket-Accept equal to
base64(SHA1(key concatenated with the websocket GUID)); and whenever the
client offers permessage-deflate, the response echoes a
Sec-WebSocket-Extensions permessage-deflate header in which every
client_max_window_bits parameter offered without a value is replaced by
15. -/
theorem websocket_accept_and_deflate_echo (req : UpgradeRequest) (key : String)
    (offers : List (List ExtParam))
    (hk : req.secWebsocketKey = some key)
    (ht : trimString key = key) :
    ("Sec-WebSocket-Accept: " ++ base64Encode (sha1 (asciiBytes (key ++ websocketGuid))))
        ∈ (upgradeSocket req).1
    ∧ (req.permessageDeflateOffers = some offers →
        ("Sec-WebSocket-Extensions: " ++ formatPermessageDeflate (offers.map normalizeExtParams))
            ∈ (upgradeSocket req).1
        ∧ ∀ ps ∈ offers, ∀ p ∈ ps,
            p.name = "client_max_window_bits" → p.value = ExtParamValue.offerFlag →
            ExtParam.mk "client_max_window_bits" (ExtParamValue.num 15) ∈ normalizeExtParams ps) := by
  obtain ⟨sk, pdo⟩ := req
  simp only at hk
  subst hk
  constructor
  · cases pdo <;> simp [upgradeSocket, ht]
  · intro hoff
    simp only at hoff
    subst hoff
    constructor
    · simp [upgradeSocket, ht]
    · intro ps hps p hp hn hv
      have hmem : normalizeExtParam p ∈ normalizeExtParams ps :=
        List.mem_map_of_mem normalizeExtParam hp
      have heq : normalizeExtParam p = ExtParam.mk "client_max_window_bits" (ExtParamValue.num 15) := by
        obtain ⟨pn, pv⟩ := p
        simp only at hn hv
        subst hn
        subst hv
        simp [normalizeExtParam]
      rw [heq] at hmem
      exact hmem

/-- C6 witness: the RFC 6455 example key yields the documented accept
value s3pPLMBiTxaQ9kYGzzhZRbK+xOo=, and the valueless
client_max_window_bits offer is echoed back as 15. -/
theorem websocket_accept_and_deflate_echo_witness :
    reqRfc.secWebsocketKey = some "dGhlIHNhbXBsZSBub25jZQ==" ∧
    trimString "dGhlIHNhbXBsZSBub25jZQ==" = "dGhlIHNhbXBsZSBub25jZQ==" ∧
    ("Sec-WebSocket-Accept: " ++ base64Encode (sha1 (asciiBytes
        ("dGhlIHNhbXBsZSBub25jZQ==" ++ websocketGuid)))) = "Sec-WebSocket-Accept: s3pPLMBiTxaQ9kYGzzhZRbK+xOo=" ∧
    (("Sec-WebSocket-Accept: " ++ base64Encode (sha1 (asciiBytes
        ("dGhlIHNhbXBsZSBub25jZQ==" ++ websocketGuid)))) ∈ (upgradeSocket reqRfc).1
    ∧ (reqRfc.permessageDeflateOffers =
          some [[ { name := "client_max_window_bits", value := ExtParamValue.offerFlag },
                  { name := "server_max_window_bits", value := ExtParamValue.num 10 } ]] →
        ("Sec-WebSocket-Extensions: " ++ formatPermessageDeflate
            ([[ { name := "client_max_window_bits", value := ExtParamValue.offerFlag },
                { name := "server_max_window_bits", value := ExtParamValue.num 10 } ]].map
              normalizeExtParams)) ∈ (upgradeSocket reqRfc).1
        ∧ ∀ ps ∈ [[ ExtParam.mk "client_max_window_bits" ExtParamValue.offerFlag,
                    ExtParam.mk "server_max_window_bits" (ExtParamValue.num 10) ]], ∀ p ∈ ps,
            p.name = "client_max_window_bits" → p.value = ExtParamValue.offerFlag →
            ExtParam.mk "client_max_window_bits" (ExtParamValue.num 15) ∈ normalizeExtParams ps)) :=
  ⟨rfl, by decide, by decide,
   websocket_accept_and_deflate_echo reqRfc "dGhlIHNhbXBsZSBub25jZQ=="
     [[ { name := "client_max_window_bits", value := ExtParamValue.offerFlag },
        { name := "server_max_window_bits", value := ExtParamValue.num 10 } ]]
     rfl (by decide)⟩
